import Mathlib

/-!
Verification of the ProductionFinanceTracker storage layer, GST utilities,
spreadsheet-import validation and production-unit routes, shallowly embedded
in Lean.

Conventions of the embedding:
* JavaScript `number` arithmetic is idealised as exact rational arithmetic
  over `ℚ`; `NaN` (the result of `parseFloat` on a non-numeric string) is
  modelled by `Option ℚ` with `none` for `NaN`.
* A string that the code only ever observes through `parseFloat` and through
  JS truthiness (the `x || d` idiom) is modelled by `NumStr`, recording
  exactly those two observations.
* `Date` values are modelled by an abstract timestamp `Time := ℕ`; operations
  that call `new Date()` receive the current time as an explicit `now`
  argument.
* Each `readXFromExcel` is modelled as returning the current typed store
  together with the id-counter reconciliation it performs while scanning the
  rows; each `writeXToExcel` replaces the store wholesale, exactly as the
  source rewrites the whole file.
-/

namespace PFT

/-! ## GST utilities (src/shared/gst-utils.ts)

The source computes on IEEE doubles and rounds with `Number(x.toFixed(2))`.
We idealise doubles as exact rationals; `toFixed(2)` picks the multiple of
1/100 nearest to `x`, ties going to the larger value, which is
`⌊100 x + 1/2⌋ / 100`. -/

/-- Rounding to two decimal places: the model of `Number(x.toFixed(2))`. -/
def roundTo2 (x : ℚ) : ℚ := (⌊x * 100 + 1/2⌋ : ℚ) / 100

/-- Model of `calculateGSTFromTotal(totalAmount, gstRate)`:
`Number(((totalAmount * gstRate) / (100 + gstRate)).toFixed(2))`. -/
def calculateGSTFromTotal (totalAmount gstRate : ℚ) : ℚ :=
  roundTo2 (totalAmount * gstRate / (100 + gstRate))

/-- Model of `calculateBaseFromTotal(totalAmount, gstRate)`:
`Number(((totalAmount * 100) / (100 + gstRate)).toFixed(2))`. -/
def calculateBaseFromTotal (totalAmount gstRate : ℚ) : ℚ :=
  roundTo2 (totalAmount * 100 / (100 + gstRate))

/-- Model of `calculateGSTFromBase(baseAmount, gstRate)`:
`Number(((baseAmount * gstRate) / 100).toFixed(2))`. -/
def calculateGSTFromBase (baseAmount gstRate : ℚ) : ℚ :=
  roundTo2 (baseAmount * gstRate / 100)

/-- Model of `calculateTotalFromBase(baseAmount, gstRate)`:
`Number((baseAmount + calculateGSTFromBase(baseAmount, gstRate)).toFixed(2))`. -/
def calculateTotalFromBase (baseAmount gstRate : ℚ) : ℚ :=
  roundTo2 (baseAmount + calculateGSTFromBase baseAmount gstRate)

/-! Auxiliary floor arithmetic for the GST theorems: `⌊n/d + 1/2⌋` as a
natural-number division. -/

theorem floor_add_half (n d : ℕ) (hd : 0 < d) :
    ⌊((n : ℚ) / (d : ℚ)) + 1/2⌋ = ((2*n + d) / (2*d) : ℕ) := by
  have hdQ : (d : ℚ) ≠ 0 := by positivity
  have hrw : ((n : ℚ) / (d : ℚ)) + 1/2 = ((2*n + d : ℕ) : ℚ) / ((2*d : ℕ) : ℚ) := by
    push_cast
    field_simp
    ring
  rw [hrw]
  have h2 : ((2*n + d : ℕ) : ℚ) = (((2*n + d : ℕ) : ℤ) : ℚ) := by push_cast; ring
  rw [h2, Rat.floor_intCast_div_natCast]
  norm_cast

theorem calculateBaseFromTotal_cents (c r : ℕ) :
    calculateBaseFromTotal ((c : ℚ)/100) (r : ℚ)
      = (((2*(100*c) + (100 + r)) / (2*(100 + r)) : ℕ) : ℚ) / 100 := by
  have hd : ((100 : ℚ) + (r : ℚ)) ≠ 0 := by positivity
  have harg : ((c : ℚ)/100) * 100 / (100 + (r : ℚ)) * 100 + 1/2
      = ((100*c : ℕ) : ℚ) / ((100 + r : ℕ) : ℚ) + 1/2 := by
    push_cast
    field_simp
    ring
  unfold calculateBaseFromTotal roundTo2
  rw [harg, floor_add_half (100*c) (100 + r) (by omega)]
  rw [Int.cast_natCast]

theorem calculateGSTFromTotal_cents (c r : ℕ) :
    calculateGSTFromTotal ((c : ℚ)/100) (r : ℚ)
      = (((2*(c*r) + (100 + r)) / (2*(100 + r)) : ℕ) : ℚ) / 100 := by
  have hd : ((100 : ℚ) + (r : ℚ)) ≠ 0 := by positivity
  have harg : ((c : ℚ)/100) * (r : ℚ) / (100 + (r : ℚ)) * 100 + 1/2
      = ((c*r : ℕ) : ℚ) / ((100 + r : ℕ) : ℚ) + 1/2 := by
    push_cast
    field_simp
    ring
  unfold calculateGSTFromTotal roundTo2
  rw [harg, floor_add_half (c*r) (100 + r) (by omega)]
  rw [Int.cast_natCast]

theorem calculateGSTFromBase_cents (a r : ℕ) :
    calculateGSTFromBase ((a : ℚ)/100) (r : ℚ)
      = (((2*(a*r) + 100) / (2*100) : ℕ) : ℚ) / 100 := by
  have harg : ((a : ℚ)/100) * (r : ℚ) / 100 * 100 + 1/2
      = ((a*r : ℕ) : ℚ) / ((100 : ℕ) : ℚ) + 1/2 := by
    push_cast
    field_simp
    ring
  unfold calculateGSTFromBase roundTo2
  rw [harg, floor_add_half (a*r) 100 (by omega)]
  rw [Int.cast_natCast]

theorem calculateTotalFromBase_cents (a r : ℕ) :
    calculateTotalFromBase ((a : ℚ)/100) (r : ℚ)
      = (((2*(a + (2*(a*r) + 100) / (2*100)) + 1) / (2*1) : ℕ) : ℚ) / 100 := by
  unfold calculateTotalFromBase
  rw [calculateGSTFromBase_cents]
  unfold roundTo2
  have harg : ((a : ℚ)/100 + (((2*(a*r) + 100) / (2*100) : ℕ) : ℚ) / 100) * 100 + 1/2
      = ((a + (2*(a*r) + 100) / (2*100) : ℕ) : ℚ) / ((1 : ℕ) : ℚ) + 1/2 := by
    push_cast
    field_simp
  rw [harg, floor_add_half _ 1 (by omega)]
  rw [Int.cast_natCast]

/-- Splitting a whole number of cents into rounded base and rounded GST parts
loses at most one cent upward: the two rounded quotients sum to `c` or `c+1`. -/
theorem div_half_sum (c d n1 n2 : ℕ) (hd : 0 < d) (hsum : n1 + n2 = d * c) :
    (2*n1 + d)/(2*d) + (2*n2 + d)/(2*d) = c ∨ (2*n1 + d)/(2*d) + (2*n2 + d)/(2*d) = c + 1 := by
  have hD : 0 < 2*d := by omega
  have h1 := Nat.div_add_mod (2*n1 + d) (2*d)
  have h2 := Nat.div_add_mod (2*n2 + d) (2*d)
  have hm1 : (2*n1 + d) % (2*d) < 2*d := Nat.mod_lt _ hD
  have hm2 : (2*n2 + d) % (2*d) < 2*d := Nat.mod_lt _ hD
  set q1 := (2*n1 + d)/(2*d) with hq1
  set q2 := (2*n2 + d)/(2*d) with hq2
  set m1 := (2*n1 + d) % (2*d) with hmm1
  set m2 := (2*n2 + d) % (2*d) with hmm2
  have hub : q1 + q2 ≤ c + 1 := by nlinarith
  have hlb : c ≤ q1 + q2 := by nlinarith
  omega

/-- Integer-level bound for the GST round trip at the statutory GST rates. -/
theorem roundtrip_int_bound (c r : ℕ) (hr : r = 0 ∨ r = 5 ∨ r = 12 ∨ r = 18 ∨ r = 28) :
    (((2*(((2*(100*c) + (100 + r)) / (2*(100 + r)))
        + (2*(((2*(100*c) + (100 + r)) / (2*(100 + r)))*r) + 100) / (2*100)) + 1) / (2*1) : ℕ) : ℤ)
      ≤ (c : ℤ) + 1
    ∧ (c : ℤ)
      ≤ (((2*(((2*(100*c) + (100 + r)) / (2*(100 + r)))
        + (2*(((2*(100*c) + (100 + r)) / (2*(100 + r)))*r) + 100) / (2*100)) + 1) / (2*1) : ℕ) : ℤ)
        + 1 := by
  rcases hr with rfl | rfl | rfl | rfl | rfl <;> exact ⟨by omega, by omega⟩

/-! ## The storage layer (src/server/storage.ts)

Data model. Timestamps are abstract; a numeric string is modelled by the two
observations the code makes of it (`parseFloat` and JS truthiness); plain
strings are Lean strings, whose JS truthiness is being nonempty; nullable
fields are `Option`; a `number`-typed foreign key is `Option ℤ`, with `none`
standing for `NaN` (a `NaN` key compares unequal to every id, exactly as
`===` treats it). -/

abbrev Time := ℕ

/-- A JS string observed only through `parseFloat` and truthiness.
`parsed = none` models a string whose `parseFloat` is `NaN`;
`truthy = false` models the empty string. -/
structure NumStr where
  parsed : Option ℚ
  truthy : Bool
deriving Repr, DecidableEq

/-- The decimal string printed for a (non-`NaN`) number `q`; `toString` of a
number is never the empty string, and printing `NaN` gives the truthy,
unparsable string "NaN". -/
def numToString (q : Option ℚ) : NumStr := ⟨q, true⟩

/-- Model of `parseFloat` on a numeric string. -/
def parseFloat (s : NumStr) : Option ℚ := s.parsed

/-- NaN-propagating addition of JS numbers. -/
def nanAdd (a b : Option ℚ) : Option ℚ :=
  match a, b with
  | some x, some y => some (x + y)
  | _, _ => none

/-- Model of `x > 0` on a JS number (`NaN > 0` is false). -/
def gtZero (a : Option ℚ) : Bool :=
  match a with
  | some x => decide (0 < x)
  | none => false

/-- Model of `x || d` for a possibly null/undefined numeric string. -/
def orNumStr (x : Option NumStr) (d : NumStr) : NumStr :=
  match x with
  | some s => if s.truthy then s else d
  | none => d

/-- Model of `x || d` for a required numeric string. -/
def orNumStrReq (x : NumStr) (d : NumStr) : NumStr :=
  if x.truthy then x else d

/-- Model of `x || null` for a possibly null/undefined numeric string. -/
def orNullNum (x : Option NumStr) : Option NumStr :=
  match x with
  | some s => if s.truthy then some s else none
  | none => none

/-- Model of `x || d` for a possibly null/undefined plain string. -/
def orStr (x : Option String) (d : String) : String :=
  match x with
  | some s => if s = "" then d else s
  | none => d

/-- Model of `x || d` for a required plain string. -/
def orStrReq (x : String) (d : String) : String :=
  if x = "" then d else x

/-- Model of `x || null` for a possibly null/undefined plain string. -/
def orNullStr (x : Option String) : Option String :=
  match x with
  | some s => if s = "" then none else some s
  | none => none

/-- Model of `x || null` for a `number | null` value (both `0` and `NaN` are
falsy, so both collapse to `null`). -/
def orNullInt (x : Option ℤ) : Option ℤ :=
  match x with
  | some k => if k = 0 then none else some k
  | none => none

/-- The string "0", as produced by literals in the source. -/
def zeroStr : NumStr := ⟨some 0, true⟩

structure ProductionUnit where
  id : ℕ
  name : String
  location : String
  status : String
  costToDate : NumStr
  createdAt : Time
deriving Repr, DecidableEq

structure InsertProductionUnit where
  name : String
  location : String
  status : Option String
deriving Repr, DecidableEq

structure Expense where
  id : ℕ
  productionUnitId : Option ℤ
  description : String
  amount : NumStr
  date : Time
  category : String
  baseAmount : Option NumStr
  gstRate : Option NumStr
  gstAmount : Option NumStr
  hsn : Option String
  invoiceNumber : Option String
  currency : Option String
deriving Repr, DecidableEq

structure InsertExpense where
  productionUnitId : Option ℤ
  description : String
  amount : NumStr
  date : Option Time
  category : String
  baseAmount : Option NumStr := none
  gstRate : Option NumStr := none
  gstAmount : Option NumStr := none
  hsn : Option String := none
  invoiceNumber : Option String := none
  currency : Option String := none
deriving Repr, DecidableEq

structure Revenue where
  id : ℕ
  productionUnitId : Option ℤ
  description : String
  amount : NumStr
  date : Time
  category : String
  baseAmount : Option NumStr
  gstRate : Option NumStr
  gstAmount : Option NumStr
  hsn : Option String
  invoiceNumber : Option String
  currency : Option String
  orderId : Option ℤ
deriving Repr, DecidableEq

structure InsertRevenue where
  productionUnitId : Option ℤ
  description : String
  amount : NumStr
  date : Option Time
  category : String
  baseAmount : Option NumStr := none
  gstRate : Option NumStr := none
  gstAmount : Option NumStr := none
  hsn : Option String := none
  invoiceNumber : Option String := none
  currency : Option String := none
  orderId : Option ℤ := none
deriving Repr, DecidableEq

structure InventoryItem where
  id : ℕ
  name : String
  description : Option String
  quantity : NumStr
  unitCost : NumStr
  productionUnitId : Option ℤ
  createdAt : Time
deriving Repr, DecidableEq

structure InsertInventoryItem where
  name : String
  description : Option String := none
  quantity : Option NumStr := none
  unitCost : NumStr
  productionUnitId : Option ℤ := none
deriving Repr, DecidableEq

structure Customer where
  id : ℕ
  name : String
  phone : Option String
  email : Option String
  address : Option String
  gstin : Option String
  createdAt : Time
  notes : Option String
deriving Repr, DecidableEq

structure InsertCustomer where
  name : String
  phone : Option String := none
  email : Option String := none
  address : Option String := none
  gstin : Option String := none
  notes : Option String := none
deriving Repr, DecidableEq

structure Order where
  id : ℕ
  orderNumber : String
  customerId : Option ℤ
  productionUnitId : Option ℤ
  orderDate : Time
  deliveryDate : Option Time
  status : String
  totalAmount : NumStr
  paidAmount : NumStr
  baseAmount : Option NumStr
  gstRate : Option NumStr
  gstAmount : Option NumStr
  hsn : Option String
  invoiceNumber : Option String
  description : String
  currency : Option String
  category : String
  measurements : Option String
  fabricDetails : Option String
  specialInstructions : Option String
deriving Repr, DecidableEq

structure InsertOrder where
  orderNumber : Option String := none
  customerId : Option ℤ
  productionUnitId : Option ℤ
  orderDate : Option Time := none
  deliveryDate : Option Time := none
  status : Option String := none
  totalAmount : NumStr
  paidAmount : Option NumStr := none
  baseAmount : Option NumStr := none
  gstRate : Option NumStr := none
  gstAmount : Option NumStr := none
  hsn : Option String := none
  invoiceNumber : Option String := none
  description : String
  currency : Option String := none
  category : String
  measurements : Option String := none
  fabricDetails : Option String := none
  specialInstructions : Option String := none
deriving Repr, DecidableEq

structure SalaryPayment where
  id : ℕ
  employeeName : String
  employeeId : Option String
  productionUnitId : Option ℤ
  amount : NumStr
  paymentDate : Time
  paymentMethod : Option String
  notes : Option String
  month : String
  year : String
deriving Repr, DecidableEq

structure InsertSalaryPayment where
  employeeName : String
  employeeId : Option String := none
  productionUnitId : Option ℤ
  amount : NumStr
  paymentDate : Option Time := none
  paymentMethod : Option String := none
  notes : Option String := none
  month : String
  year : String
deriving Repr, DecidableEq

structure User where
  id : ℕ
  username : String
  password : String
  name : String
  role : String
deriving Repr, DecidableEq

structure InsertUser where
  username : String
  password : String
  name : String
  role : String
deriving Repr, DecidableEq

/-- In-memory image of the data directory plus the id counters held by the
`ExcelStorage` object. Each list is the typed content of one spreadsheet
file. -/
structure State where
  productionUnits : List ProductionUnit
  expenses : List Expense
  revenues : List Revenue
  inventory : List InventoryItem
  customers : List Customer
  orders : List Order
  salaryPayments : List SalaryPayment
  users : List User
  unitNextId : ℕ
  expenseNextId : ℕ
  revenueNextId : ℕ
  inventoryNextId : ℕ
  customerNextId : ℕ
  orderNextId : ℕ
  salaryPaymentNextId : ℕ
  userNextId : ℕ
deriving Repr, DecidableEq

/-- The id-counter reconciliation every `readXFromExcel` performs: for each
row in order, `if (id >= this.nextId) this.nextId = id + 1`. -/
def reconcileNextId (counter : ℕ) (ids : List ℕ) : ℕ :=
  ids.foldl (fun acc i => if acc ≤ i then i + 1 else acc) counter

def readProductionUnitsFromExcel (st : State) : List ProductionUnit × State :=
  (st.productionUnits,
   { st with unitNextId := reconcileNextId st.unitNextId (st.productionUnits.map (·.id)) })

def writeProductionUnitsToExcel (units : List ProductionUnit) (st : State) : State :=
  { st with productionUnits := units }

def readExpensesFromExcel (st : State) : List Expense × State :=
  (st.expenses,
   { st with expenseNextId := reconcileNextId st.expenseNextId (st.expenses.map (·.id)) })

def writeExpensesToExcel (expenses : List Expense) (st : State) : State :=
  { st with expenses := expenses }

def readRevenuesFromExcel (st : State) : List Revenue × State :=
  (st.revenues,
   { st with revenueNextId := reconcileNextId st.revenueNextId (st.revenues.map (·.id)) })

def writeRevenuesToExcel (revenues : List Revenue) (st : State) : State :=
  { st with revenues := revenues }

def readInventoryFromExcel (st : State) : List InventoryItem × State :=
  (st.inventory,
   { st with inventoryNextId := reconcileNextId st.inventoryNextId (st.inventory.map (·.id)) })

def writeInventoryToExcel (items : List InventoryItem) (st : State) : State :=
  { st with inventory := items }

def readCustomersFromExcel (st : State) : List Customer × State :=
  (st.customers,
   { st with customerNextId := reconcileNextId st.customerNextId (st.customers.map (·.id)) })

def writeCustomersToExcel (customers : List Customer) (st : State) : State :=
  { st with customers := customers }

def readOrdersFromExcel (st : State) : List Order × State :=
  (st.orders,
   { st with orderNextId := reconcileNextId st.orderNextId (st.orders.map (·.id)) })

def writeOrdersToExcel (orders : List Order) (st : State) : State :=
  { st with orders := orders }

def readSalaryPaymentsFromExcel (st : State) : List SalaryPayment × State :=
  (st.salaryPayments,
   { st with salaryPaymentNextId :=
      reconcileNextId st.salaryPaymentNextId (st.salaryPayments.map (·.id)) })

def writeSalaryPaymentsToExcel (payments : List SalaryPayment) (st : State) : State :=
  { st with salaryPayments := payments }

/-- The default admin record that `readUsersFromExcel` writes and returns
when the users file has no data rows. -/
def defaultAdminUser : User :=
  { id := 1, username := "admin", password := "admin", name := "Administrator", role := "admin" }

/-- Model of `readUsersFromExcel`: an empty users file is replaced by a
single default admin user; otherwise the rows are returned and the id
counter reconciled. -/
def readUsersFromExcel (st : State) : List User × State :=
  if st.users.isEmpty then
    ([defaultAdminUser], { st with users := [defaultAdminUser] })
  else
    (st.users,
     { st with userNextId := reconcileNextId st.userNextId (st.users.map (·.id)) })

def writeUsersToExcel (users : List User) (st : State) : State :=
  { st with users := users }

/-- Replace the first element satisfying `p` by its image under `f`,
returning the new element; this is the `findIndex` / assign-at-index /
write-back pattern used by every `updateX` method (a `findIndex` of `-1`
corresponds to the `none` result). -/
def updateFirst {α : Type} (p : α → Bool) (f : α → α) : List α → Option α × List α
  | [] => (none, [])
  | x :: rest =>
    if p x then (some (f x), f x :: rest)
    else ((updateFirst p f rest).1, x :: (updateFirst p f rest).2)

/-- Partial<ProductionUnit>: the update object of `updateProductionUnit`;
`none` means the key is absent. -/
structure ProductionUnitUpdates where
  id : Option ℕ := none
  name : Option String := none
  location : Option String := none
  status : Option String := none
  costToDate : Option NumStr := none
  createdAt : Option Time := none
deriving Repr, DecidableEq

/-- The spread `{ ...unit, ...updates }`. -/
def applyUnitUpdates (u : ProductionUnit) (up : ProductionUnitUpdates) : ProductionUnit :=
  { id := up.id.getD u.id
    name := up.name.getD u.name
    location := up.location.getD u.location
    status := up.status.getD u.status
    costToDate := up.costToDate.getD u.costToDate
    createdAt := up.createdAt.getD u.createdAt }

/-- Partial<Revenue>: the update object of `updateRevenue`. -/
structure RevenueUpdates where
  id : Option ℕ := none
  productionUnitId : Option (Option ℤ) := none
  description : Option String := none
  amount : Option NumStr := none
  date : Option Time := none
  category : Option String := none
  baseAmount : Option (Option NumStr) := none
  gstRate : Option (Option NumStr) := none
  gstAmount : Option (Option NumStr) := none
  hsn : Option (Option String) := none
  invoiceNumber : Option (Option String) := none
  currency : Option (Option String) := none
  orderId : Option (Option ℤ) := none
deriving Repr, DecidableEq

/-- The spread `{ ...revenue, ...updates }`. -/
def applyRevenueUpdates (r : Revenue) (up : RevenueUpdates) : Revenue :=
  { id := up.id.getD r.id
    productionUnitId := up.productionUnitId.getD r.productionUnitId
    description := up.description.getD r.description
    amount := up.amount.getD r.amount
    date := up.date.getD r.date
    category := up.category.getD r.category
    baseAmount := up.baseAmount.getD r.baseAmount
    gstRate := up.gstRate.getD r.gstRate
    gstAmount := up.gstAmount.getD r.gstAmount
    hsn := up.hsn.getD r.hsn
    invoiceNumber := up.invoiceNumber.getD r.invoiceNumber
    currency := up.currency.getD r.currency
    orderId := up.orderId.getD r.orderId }

/-! Production unit operations. -/

/-- Model of `getProductionUnit(id)`; the argument is the JS number used for
the lookup (`none` = `NaN`, which `===`-matches no record). -/
def getProductionUnit (id : Option ℤ) (st : State) : Option ProductionUnit × State :=
  let (units, st) := readProductionUnitsFromExcel st
  (match id with
   | some k => units.find? (fun u => (u.id : ℤ) == k)
   | none => none, st)

/-- Model of `createProductionUnit(unit)`. -/
def createProductionUnit (now : Time) (unit : InsertProductionUnit) (st : State) :
    ProductionUnit × State :=
  let (units, st) := readProductionUnitsFromExcel st
  let newUnit : ProductionUnit :=
    { id := st.unitNextId
      name := unit.name
      location := unit.location
      status := orStr unit.status "active"
      costToDate := zeroStr
      createdAt := now }
  let st := { st with unitNextId := st.unitNextId + 1 }
  (newUnit, writeProductionUnitsToExcel (units ++ [newUnit]) st)

/-- Model of `updateProductionUnit(id, updates)`. -/
def updateProductionUnit (id : ℤ) (updates : ProductionUnitUpdates) (st : State) :
    Option ProductionUnit × State :=
  let (units, st) := readProductionUnitsFromExcel st
  let (res, units2) := updateFirst (fun u => (u.id : ℤ) == id) (fun u => applyUnitUpdates u updates) units
  match res with
  | none => (none, st)
  | some u => (some u, writeProductionUnitsToExcel units2 st)

/-- Model of `deleteProductionUnit(id)`. -/
def deleteProductionUnit (id : ℤ) (st : State) : Bool × State :=
  let (units, st) := readProductionUnitsFromExcel st
  let filteredUnits := units.filter (fun u => !((u.id : ℤ) == id))
  if filteredUnits.length == units.length then (false, st)
  else (true, writeProductionUnitsToExcel filteredUnits st)

/-! Expense and revenue operations. -/

/-- Model of `createExpense(expense)`: append the record, then add its amount
to the linked production unit's running cost. -/
def createExpense (now : Time) (expense : InsertExpense) (st : State) : Expense × State :=
  let (expenses, st) := readExpensesFromExcel st
  let newExpense : Expense :=
    { id := st.expenseNextId
      productionUnitId := expense.productionUnitId
      description := expense.description
      amount := expense.amount
      date := expense.date.getD now
      category := expense.category
      baseAmount := orNullNum expense.baseAmount
      gstRate := orNullNum expense.gstRate
      gstAmount := orNullNum expense.gstAmount
      hsn := orNullStr expense.hsn
      invoiceNumber := orNullStr expense.invoiceNumber
      currency := some (orStr expense.currency "INR") }
  let st := { st with expenseNextId := st.expenseNextId + 1 }
  let st := writeExpensesToExcel (expenses ++ [newExpense]) st
  let (unitOpt, st) := getProductionUnit expense.productionUnitId st
  match unitOpt with
  | some unit =>
    let currentCost := parseFloat unit.costToDate
    let newCost := nanAdd currentCost (parseFloat expense.amount)
    let (_, st) := updateProductionUnit (unit.id : ℤ)
      { costToDate := some (numToString newCost) } st
    (newExpense, st)
  | none => (newExpense, st)

/-- Model of `createRevenue(revenue)`. -/
def createRevenue (now : Time) (revenue : InsertRevenue) (st : State) : Revenue × State :=
  let (revenues, st) := readRevenuesFromExcel st
  let newRevenue : Revenue :=
    { id := st.revenueNextId
      productionUnitId := revenue.productionUnitId
      description := revenue.description
      amount := revenue.amount
      date := revenue.date.getD now
      category := revenue.category
      baseAmount := orNullNum revenue.baseAmount
      gstRate := orNullNum revenue.gstRate
      gstAmount := orNullNum revenue.gstAmount
      hsn := orNullStr revenue.hsn
      invoiceNumber := orNullStr revenue.invoiceNumber
      currency := some (orStr revenue.currency "INR")
      orderId := revenue.orderId }
  let st := { st with revenueNextId := st.revenueNextId + 1 }
  (newRevenue, writeRevenuesToExcel (revenues ++ [newRevenue]) st)

/-- Model of `updateRevenue(id, updates)`. -/
def updateRevenue (id : ℤ) (updates : RevenueUpdates) (st : State) :
    Option Revenue × State :=
  let (revenues, st) := readRevenuesFromExcel st
  let (res, revenues2) :=
    updateFirst (fun r => (r.id : ℤ) == id) (fun r => applyRevenueUpdates r updates) revenues
  match res with
  | none => (none, st)
  | some r => (some r, writeRevenuesToExcel revenues2 st)

/-! Inventory, customer, order, salary and user operations. -/

/-- Model of `createInventoryItem(item)`. -/
def createInventoryItem (now : Time) (item : InsertInventoryItem) (st : State) :
    InventoryItem × State :=
  let (items, st) := readInventoryFromExcel st
  let newItem : InventoryItem :=
    { id := st.inventoryNextId
      name := item.name
      description := orNullStr item.description
      quantity := orNumStr item.quantity zeroStr
      unitCost := item.unitCost
      productionUnitId := orNullInt item.productionUnitId
      createdAt := now }
  let st := { st with inventoryNextId := st.inventoryNextId + 1 }
  (newItem, writeInventoryToExcel (items ++ [newItem]) st)

/-- Model of `deleteCustomer(id)`: refuse when any order references the
customer, otherwise filter the customer out. -/
def deleteCustomer (id : ℤ) (st : State) : Bool × State :=
  let (orders, st) := readOrdersFromExcel st
  let hasOrders := orders.any (fun o => o.customerId == some id)
  if hasOrders then (false, st)
  else
    let (customers, st) := readCustomersFromExcel st
    let filteredCustomers := customers.filter (fun c => !((c.id : ℤ) == id))
    if filteredCustomers.length == customers.length then (false, st)
    else (true, writeCustomersToExcel filteredCustomers st)

/-- The `this.orderNextId.toString().padStart(4, '0')` fragment. -/
def padStart4 (n : ℕ) : String :=
  let s := toString n
  if s.length < 4 then String.mk (List.replicate (4 - s.length) '0') ++ s else s

/-- Model of `createOrder(order)`: append the order and, when its amount is
positive and its status is not "draft", create the matching revenue entry. -/
def createOrder (now : Time) (year : ℕ) (order : InsertOrder) (st : State) : Order × State :=
  let (orders, st) := readOrdersFromExcel st
  let orderNumber :=
    orStr order.orderNumber ("ORD-" ++ toString year ++ "-" ++ padStart4 st.orderNextId)
  let newOrder : Order :=
    { id := st.orderNextId
      orderNumber := orderNumber
      customerId := order.customerId
      productionUnitId := order.productionUnitId
      orderDate := order.orderDate.getD now
      deliveryDate := order.deliveryDate
      status := orStr order.status "pending"
      totalAmount := orNumStrReq order.totalAmount zeroStr
      paidAmount := orNumStr order.paidAmount zeroStr
      baseAmount := orNullNum order.baseAmount
      gstRate := orNullNum order.gstRate
      gstAmount := orNullNum order.gstAmount
      hsn := orNullStr order.hsn
      invoiceNumber := orNullStr order.invoiceNumber
      currency := some (orStr order.currency "INR")
      description := order.description
      category := order.category
      measurements := orNullStr order.measurements
      fabricDetails := orNullStr order.fabricDetails
      specialInstructions := orNullStr order.specialInstructions }
  let st := { st with orderNextId := st.orderNextId + 1 }
  let st := writeOrdersToExcel (orders ++ [newOrder]) st
  if gtZero (parseFloat newOrder.totalAmount) && !(newOrder.status == "draft") then
    let (_, st) := createRevenue now
      { productionUnitId := newOrder.productionUnitId
        description :=
          "Order " ++ newOrder.orderNumber ++ ": " ++ orStrReq newOrder.description "Stitching services"
        amount := newOrder.totalAmount
        date := some newOrder.orderDate
        category := "Stitching"
        baseAmount := newOrder.baseAmount
        gstRate := newOrder.gstRate
        gstAmount := newOrder.gstAmount
        hsn := newOrder.hsn
        invoiceNumber := newOrder.invoiceNumber
        currency := newOrder.currency
        orderId := some (newOrder.id : ℤ) } st
    (newOrder, st)
  else (newOrder, st)

/-- Model of `createSalaryPayment(payment)`: append the payment and, when its
amount is positive, create the matching "Salary" expense. -/
def createSalaryPayment (now : Time) (payment : InsertSalaryPayment) (st : State) :
    SalaryPayment × State :=
  let (payments, st) := readSalaryPaymentsFromExcel st
  let newPayment : SalaryPayment :=
    { id := st.salaryPaymentNextId
      employeeName := payment.employeeName
      employeeId := payment.employeeId
      productionUnitId := payment.productionUnitId
      amount := payment.amount
      paymentDate := payment.paymentDate.getD now
      paymentMethod := payment.paymentMethod
      notes := orNullStr payment.notes
      month := payment.month
      year := payment.year }
  let st := { st with salaryPaymentNextId := st.salaryPaymentNextId + 1 }
  let st := writeSalaryPaymentsToExcel (payments ++ [newPayment]) st
  if gtZero (parseFloat newPayment.amount) then
    let (_, st) := createExpense now
      { productionUnitId := newPayment.productionUnitId
        description :=
          "Salary: " ++ newPayment.employeeName ++ " - " ++ newPayment.month ++ "/" ++ newPayment.year
        amount := newPayment.amount
        date := some newPayment.paymentDate
        category := "Salary"
        currency := some "INR" } st
    (newPayment, st)
  else (newPayment, st)

/-- Model of `deleteSalaryPayment(id)`: filter the payment out, leaving the
matching expense (and therefore the unit cost) untouched. -/
def deleteSalaryPayment (id : ℤ) (st : State) : Bool × State :=
  let (payments, st) := readSalaryPaymentsFromExcel st
  let filteredPayments := payments.filter (fun p => !((p.id : ℤ) == id))
  if filteredPayments.length == payments.length then (false, st)
  else (true, writeSalaryPaymentsToExcel filteredPayments st)

/-- Model of `createUser(user)`: return the existing record when the username
is already taken, otherwise append a fresh record. -/
def createUser (user : InsertUser) (st : State) : User × State :=
  let (users, st) := readUsersFromExcel st
  match users.find? (fun u => u.username == user.username) with
  | some existingUser => (existingUser, st)
  | none =>
    let newUser : User :=
      { id := st.userNextId
        username := user.username
        password := user.password
        name := user.name
        role := user.role }
    let st := { st with userNextId := st.userNextId + 1 }
    (newUser, writeUsersToExcel (users ++ [newUser]) st)

/-! ## Excel import (src/server/storage.ts, `importFromExcel` and helpers)

A spreadsheet cell is an untyped JS value; the import code observes it only
through truthiness, `toString()`, `parseInt`, `new Date(...)` and storing its
string form, so a (present) cell is modelled by exactly those observations;
an absent cell (`undefined`, on which `.toString()` throws) is `none`. -/

structure JsVal where
  truthy : Bool
  strForm : String
  numStrForm : NumStr
  intForm : Option ℤ
  timeForm : Time
deriving Repr, DecidableEq

abbrev Cell := Option JsVal

abbrev Row := List Cell

/-- JS `row[i]` with a possibly negative index. -/
def getCell (row : Row) (i : ℤ) : Cell :=
  if i < 0 then none else (row.getD i.toNat none)

/-- JS `headers.indexOf(field)`: first index or `-1`. -/
def indexOf (xs : List String) (s : String) : ℤ :=
  match xs.findIdx? (· == s) with
  | some n => (n : ℤ)
  | none => -1

/-- Truthiness of `row[i]`. -/
def cellTruthy (c : Cell) : Bool :=
  match c with
  | some v => v.truthy
  | none => false

/-- JS `row[i].toString()` viewed as a numeric string; throws a `TypeError`
on an absent cell. -/
def cellToNumStr (c : Cell) : Except String NumStr :=
  match c with
  | some v => .ok v.numStrForm
  | none => .error "TypeError: Cannot read properties of undefined"

/-- A cell stored into a `string`-typed record field (`String(undefined)` is
the string "undefined"). -/
def cellField (c : Cell) : String :=
  match c with
  | some v => v.strForm
  | none => "undefined"

/-- JS `parseInt(row[i])` (`NaN` on an absent cell). -/
def cellParseInt (c : Cell) : Option ℤ :=
  match c with
  | some v => v.intForm
  | none => none

/-- The `idx >= 0 && row[idx] ? row[idx].toString() : null` pattern. -/
def optNumStrCell (row : Row) (i : ℤ) : Option NumStr :=
  if 0 ≤ i then
    match getCell row i with
    | some v => if v.truthy then some v.numStrForm else none
    | none => none
  else none

/-- The `idx >= 0 && row[idx] ? row[idx] : null` pattern for string fields. -/
def optStrCell (row : Row) (i : ℤ) : Option String :=
  if 0 ≤ i then
    match getCell row i with
    | some v => if v.truthy then some v.strForm else none
    | none => none
  else none

/-- The `idx >= 0 && row[idx] ? row[idx] : d` pattern. -/
def strCellOr (row : Row) (i : ℤ) (d : String) : String :=
  if 0 ≤ i then
    match getCell row i with
    | some v => if v.truthy then v.strForm else d
    | none => d
  else d

/-- The `idx >= 0 && row[idx] ? new Date(row[idx]) : new Date()` pattern. -/
def timeCellOr (row : Row) (i : ℤ) (now : Time) : Time :=
  if 0 ≤ i then
    match getCell row i with
    | some v => if v.truthy then v.timeForm else now
    | none => now
  else now

/-- Model of `validateHeaders(headers, requiredFields)`: the first missing
required field throws. -/
def validateHeaders (headers : List String) (requiredFields : List String) :
    Except String Unit :=
  match requiredFields with
  | [] => .ok ()
  | f :: rest =>
    if headers.contains f then validateHeaders headers rest
    else .error ("Required field missing in Excel file: " ++ f)

/-- Row loop of `importProductionUnits`; the index lookups are pure, so
recomputing them per row is equivalent to the source's hoisting. -/
def importProductionUnitsLoop (now : Time) (headers : List String) (rows : List Row)
    (count : ℕ) (st : State) : Except String ℕ × State :=
  match rows with
  | [] => (.ok count, st)
  | row :: rest =>
    let unit : InsertProductionUnit :=
      { name := cellField (getCell row (indexOf headers "name"))
        location := cellField (getCell row (indexOf headers "location"))
        status :=
          some (strCellOr row (indexOf headers "status") "active") }
    let (_, st) := createProductionUnit now unit st
    importProductionUnitsLoop now headers rest (count + 1) st

/-- Model of `importProductionUnits(headers, rows)`. -/
def importProductionUnits (now : Time) (headers : List String) (rows : List Row)
    (st : State) : Except String ℕ × State :=
  match validateHeaders headers ["name", "location", "status"] with
  | .error e => (.error e, st)
  | .ok _ => importProductionUnitsLoop now headers rows 0 st

/-- Row loop of `importExpenses`. -/
def importExpensesLoop (now : Time) (headers : List String) (rows : List Row)
    (count : ℕ) (st : State) : Except String ℕ × State :=
  match rows with
  | [] => (.ok count, st)
  | row :: rest =>
    match cellToNumStr (getCell row (indexOf headers "amount")) with
    | .error e => (.error e, st)
    | .ok amount =>
      let expense : InsertExpense :=
        { productionUnitId := cellParseInt (getCell row (indexOf headers "productionUnitId"))
          description := cellField (getCell row (indexOf headers "description"))
          amount := amount
          date := some (timeCellOr row (indexOf headers "date") now)
          category := cellField (getCell row (indexOf headers "category"))
          baseAmount := optNumStrCell row (indexOf headers "baseAmount")
          gstRate := optNumStrCell row (indexOf headers "gstRate")
          gstAmount := optNumStrCell row (indexOf headers "gstAmount")
          hsn := optStrCell row (indexOf headers "hsn")
          invoiceNumber := optStrCell row (indexOf headers "invoiceNumber")
          currency := some (strCellOr row (indexOf headers "currency") "INR") }
      let (_, st) := createExpense now expense st
      importExpensesLoop now headers rest (count + 1) st

/-- Model of `importExpenses(headers, rows)`. -/
def importExpenses (now : Time) (headers : List String) (rows : List Row)
    (st : State) : Except String ℕ × State :=
  match validateHeaders headers ["productionUnitId", "description", "amount", "category"] with
  | .error e => (.error e, st)
  | .ok _ => importExpensesLoop now headers rows 0 st

/-- Row loop of `importRevenues`. -/
def importRevenuesLoop (now : Time) (headers : List String) (rows : List Row)
    (count : ℕ) (st : State) : Except String ℕ × State :=
  match rows with
  | [] => (.ok count, st)
  | row :: rest =>
    match cellToNumStr (getCell row (indexOf headers "amount")) with
    | .error e => (.error e, st)
    | .ok amount =>
      let revenue : InsertRevenue :=
        { productionUnitId := cellParseInt (getCell row (indexOf headers "productionUnitId"))
          description := cellField (getCell row (indexOf headers "description"))
          amount := amount
          date := some (timeCellOr row (indexOf headers "date") now)
          category := cellField (getCell row (indexOf headers "category"))
          baseAmount := optNumStrCell row (indexOf headers "baseAmount")
          gstRate := optNumStrCell row (indexOf headers "gstRate")
          gstAmount := optNumStrCell row (indexOf headers "gstAmount")
          hsn := optStrCell row (indexOf headers "hsn")
          invoiceNumber := optStrCell row (indexOf headers "invoiceNumber")
          currency := some (strCellOr row (indexOf headers "currency") "INR") }
      let (_, st) := createRevenue now revenue st
      importRevenuesLoop now headers rest (count + 1) st

/-- Model of `importRevenues(headers, rows)`. -/
def importRevenues (now : Time) (headers : List String) (rows : List Row)
    (st : State) : Except String ℕ × State :=
  match validateHeaders headers ["productionUnitId", "description", "amount", "category"] with
  | .error e => (.error e, st)
  | .ok _ => importRevenuesLoop now headers rows 0 st

/-- Row loop of `importInventory`. -/
def importInventoryLoop (now : Time) (headers : List String) (rows : List Row)
    (count : ℕ) (st : State) : Except String ℕ × State :=
  match rows with
  | [] => (.ok count, st)
  | row :: rest =>
    match cellToNumStr (getCell row (indexOf headers "quantity")) with
    | .error e => (.error e, st)
    | .ok quantity =>
      match cellToNumStr (getCell row (indexOf headers "unitCost")) with
      | .error e => (.error e, st)
      | .ok unitCost =>
        let item : InsertInventoryItem :=
          { name := cellField (getCell row (indexOf headers "name"))
            description := optStrCell row (indexOf headers "description")
            quantity := some quantity
            unitCost := unitCost
            productionUnitId :=
              if 0 ≤ indexOf headers "productionUnitId" then
                cellParseInt (getCell row (indexOf headers "productionUnitId"))
              else none }
        let (_, st) := createInventoryItem now item st
        importInventoryLoop now headers rest (count + 1) st

/-- Model of `importInventory(headers, rows)`. -/
def importInventory (now : Time) (headers : List String) (rows : List Row)
    (st : State) : Except String ℕ × State :=
  match validateHeaders headers ["name", "quantity", "unitCost"] with
  | .error e => (.error e, st)
  | .ok _ => importInventoryLoop now headers rows 0 st

/-- The header value of a cell, as compared by `headers.includes(field)`. -/
def headerName (c : Cell) : String :=
  match c with
  | some v => v.strForm
  | none => "undefined"

/-- Model of `importFromExcel(fileBuffer, type)`, with `fileData` the parsed
sheet: the first row is the header row, the rest are data rows. -/
def importFromExcel (now : Time) (fileData : List Row) (type : String) (st : State) :
    Except String ℕ × State :=
  if fileData.length ≤ 1 then (.error "Invalid Excel file format or empty file", st)
  else
    let headers := (fileData.headD []).map headerName
    let rows := fileData.tail
    if type == "production_units" then importProductionUnits now headers rows st
    else if type == "expenses" then importExpenses now headers rows st
    else if type == "revenues" then importRevenues now headers rows st
    else if type == "inventory" then importInventory now headers rows st
    else (.error ("Unsupported import type: " ++ type), st)

/-- The required columns `importFromExcel` checks for each supported type. -/
def requiredFieldsFor (type : String) : List String :=
  if type == "production_units" then ["name", "location", "status"]
  else if type == "expenses" then ["productionUnitId", "description", "amount", "category"]
  else if type == "revenues" then ["productionUnitId", "description", "amount", "category"]
  else if type == "inventory" then ["name", "quantity", "unitCost"]
  else []

/-! ## Production-unit routes (src/server/routes.ts)

Each handler is modelled as a function of the body-validation outcome
(`none` = `safeParse` failure), a `fault` flag standing for a rejected
storage promise (the `catch` branch), and the storage state; it returns the
HTTP status code and the resulting state. -/

/-- Model of `POST /api/production-units`. -/
def postProductionUnitRoute (now : Time) (fault : Bool)
    (validation : Option InsertProductionUnit) (st : State) : ℕ × State :=
  match validation with
  | none => (400, st)
  | some unit =>
    if fault then (500, st)
    else
      let (_, st) := createProductionUnit now unit st
      (201, st)

/-- Model of `PUT /api/production-units/:id`. -/
def putProductionUnitRoute (fault : Bool) (id : ℤ)
    (validation : Option ProductionUnitUpdates) (st : State) : ℕ × State :=
  match validation with
  | none => (400, st)
  | some updates =>
    if fault then (500, st)
    else
      match updateProductionUnit id updates st with
      | (none, st) => (404, st)
      | (some _, st) => (200, st)

/-- Model of `DELETE /api/production-units/:id`. -/
def deleteProductionUnitRoute (fault : Bool) (id : ℤ) (st : State) : ℕ × State :=
  if fault then (500, st)
  else
    match deleteProductionUnit id st with
    | (false, st) => (404, st)
    | (true, st) => (204, st)

/-! ## Concrete fixtures used to exercise the model -/

def emptyState : State :=
  { productionUnits := [], expenses := [], revenues := [], inventory := []
    customers := [], orders := [], salaryPayments := [], users := []
    unitNextId := 1, expenseNextId := 1, revenueNextId := 1, inventoryNextId := 1
    customerNextId := 1, orderNextId := 1, salaryPaymentNextId := 1, userNextId := 1 }

def unitOne : ProductionUnit :=
  { id := 1, name := "Unit A", location := "Pune", status := "active"
    costToDate := ⟨some 0, true⟩, createdAt := 0 }

def customerOne : Customer :=
  { id := 1, name := "Asha", phone := none, email := none, address := none
    gstin := none, createdAt := 0, notes := none }

def orderOne : Order :=
  { id := 1, orderNumber := "ORD-2024-0001", customerId := some 1, productionUnitId := some 1
    orderDate := 0, deliveryDate := none, status := "pending"
    totalAmount := ⟨some 100, true⟩, paidAmount := ⟨some 0, true⟩
    baseAmount := none, gstRate := none, gstAmount := none, hsn := none
    invoiceNumber := none, description := "Shirts", currency := some "INR"
    category := "Stitching", measurements := none, fabricDetails := none
    specialInstructions := none }

def revenueOne : Revenue :=
  { id := 1, productionUnitId := some 1, description := "Sale", amount := ⟨some 100, true⟩
    date := 0, category := "Stitching", baseAmount := none, gstRate := none
    gstAmount := none, hsn := none, invoiceNumber := none, currency := some "INR"
    orderId := none }

def expenseOne : Expense :=
  { id := 1, productionUnitId := some 1, description := "Thread", amount := ⟨some 7, true⟩
    date := 0, category := "Thread", baseAmount := none, gstRate := none
    gstAmount := none, hsn := none, invoiceNumber := none, currency := some "INR" }

def expenseInsertOne : InsertExpense :=
  { productionUnitId := some 1, description := "Fabric", amount := ⟨some 5, true⟩
    date := some 0, category := "Fabric" }

def salaryInsertOne : InsertSalaryPayment :=
  { employeeName := "Ravi", productionUnitId := some 1, amount := ⟨some 50, true⟩
    month := "01", year := "2024" }

def orderInsertOne : InsertOrder :=
  { orderNumber := some "ORD-X", customerId := some 1, productionUnitId := some 1
    totalAmount := ⟨some 250, true⟩, description := "Uniforms", category := "Uniform Orders" }

def userInsertAdmin : InsertUser :=
  { username := "admin", password := "admin", name := "John Doe", role := "Financial Manager" }

def userInsertBob : InsertUser :=
  { username := "bob", password := "pw", name := "Bob", role := "staff" }

def stateWithUnit : State := { emptyState with productionUnits := [unitOne] }

def stateWithOrder : State :=
  { emptyState with customers := [customerOne], orders := [orderOne] }

def stateWithRevenue : State :=
  { emptyState with revenues := [revenueOne] }

def stateWithExpense : State :=
  { emptyState with productionUnits := [unitOne], expenses := [expenseOne] }

def stateWithAdmin : State := { emptyState with users := [defaultAdminUser] }

def revUpdatesOne : RevenueUpdates := { amount := some ⟨some 200, true⟩ }

def insertUnitB : InsertProductionUnit :=
  { name := "Unit B", location := "Nashik", status := none }

def unitUpdatesEmpty : ProductionUnitUpdates := {}

/-- A plain header cell holding the string `s`. -/
def headerCell (s : String) : Cell :=
  some { truthy := true, strForm := s, numStrForm := ⟨none, true⟩, intForm := none, timeForm := 0 }

/-! ## Supporting lemmas -/

theorem reconcileNextId_le (ids : List ℕ) : ∀ c, c ≤ reconcileNextId c ids := by
  induction ids with
  | nil => intro c; simp [reconcileNextId]
  | cons x xs ih =>
    intro c
    simp only [reconcileNextId, List.foldl_cons]
    by_cases h : c ≤ x
    · simp only [h, if_pos]
      exact le_trans (by omega) (ih (x + 1))
    · simp only [h, if_neg, not_false_iff]
      exact ih c

theorem lt_reconcileNextId (ids : List ℕ) :
    ∀ c i, i ∈ ids → i < reconcileNextId c ids := by
  induction ids with
  | nil => intro c i h; cases h
  | cons x xs ih =>
    intro c i h
    simp only [reconcileNextId, List.foldl_cons]
    rcases List.mem_cons.mp h with rfl | hmem
    · by_cases hcx : c ≤ i
      · simp only [hcx, if_pos]
        exact lt_of_lt_of_le (by omega) (reconcileNextId_le xs (i + 1))
      · simp only [hcx, if_neg, not_false_iff]
        exact lt_of_lt_of_le (by omega) (reconcileNextId_le xs c)
    · exact ih _ i hmem

theorem map_id_of_fix {α : Type} (g : α → α) :
    ∀ (l : List α), (∀ x ∈ l, g x = x) → l.map g = l := by
  intro l
  induction l with
  | nil => intro _; simp
  | cons x rest ih =>
    intro h
    simp only [List.map_cons]
    rw [h x (by simp), ih (fun y hy => h y (by simp [hy]))]

theorem updateFirst_fst {α : Type} (p : α → Bool) (f : α → α) (xs : List α) :
    (updateFirst p f xs).1 = (xs.find? p).map f := by
  induction xs with
  | nil => simp [updateFirst]
  | cons x rest ih =>
    by_cases h : p x
    · simp [updateFirst, h, List.find?_cons_of_pos _ h]
    · have h1 : (updateFirst p f (x :: rest)).1 = (updateFirst p f rest).1 := by
        simp [updateFirst, h]
      rw [h1, List.find?_cons_of_neg _ h]
      exact ih

theorem updateFirst_snd_of_none {α : Type} (p : α → Bool) (f : α → α) (xs : List α)
    (h : xs.find? p = none) : (updateFirst p f xs).2 = xs := by
  induction xs with
  | nil => simp [updateFirst]
  | cons x rest ih =>
    have hx : ¬ p x = true := by
      intro hpx
      simp [List.find?_cons_of_pos _ hpx] at h
    have hrest : rest.find? p = none := by
      rwa [List.find?_cons_of_neg _ (by simp [hx])] at h
    simp [updateFirst, hx, ih hrest]

theorem updateFirst_snd_eq_map {α : Type} (p : α → Bool) (f : α → α) (xs : List α)
    (h : xs.Pairwise (fun a b => p a = true → p b = true → False)) :
    (updateFirst p f xs).2 = xs.map (fun x => if p x then f x else x) := by
  induction xs with
  | nil => simp [updateFirst]
  | cons x rest ih =>
    rcases List.pairwise_cons.mp h with ⟨hx, hrest⟩
    by_cases hpx : p x
    · have hmap : rest.map (fun y => if p y then f y else y) = rest :=
        map_id_of_fix _ rest (fun y hy => by
          have hny : ¬ p y = true := fun hpy => hx y hy hpx hpy
          simp [hny])
      simp [updateFirst, hpx, hmap]
    · simp [updateFirst, hpx, ih hrest]

theorem updateFirst_snd_find? {α : Type} (p : α → Bool) (f : α → α) (xs : List α)
    (x : α) (h : xs.find? p = some x) (hf : p (f x) = true) :
    (updateFirst p f xs).2.find? p = some (f x) := by
  induction xs with
  | nil => simp at h
  | cons y rest ih =>
    by_cases hpy : p y
    · rw [List.find?_cons_of_pos _ hpy] at h
      injection h with h
      subst h
      simp [updateFirst, hpy, List.find?_cons_of_pos _ hf]
    · rw [List.find?_cons_of_neg _ hpy] at h
      have h2 : (updateFirst p f (y :: rest)).2 = y :: (updateFirst p f rest).2 := by
        simp [updateFirst, hpy]
      rw [h2, List.find?_cons_of_neg _ hpy]
      exact ih h

/-! Characterisation of `createExpense`. -/

theorem createExpense_fst (now : Time) (e : InsertExpense) (st : State) :
    (createExpense now e st).1 =
      { id := reconcileNextId st.expenseNextId (st.expenses.map (·.id))
        productionUnitId := e.productionUnitId
        description := e.description
        amount := e.amount
        date := e.date.getD now
        category := e.category
        baseAmount := orNullNum e.baseAmount
        gstRate := orNullNum e.gstRate
        gstAmount := orNullNum e.gstAmount
        hsn := orNullStr e.hsn
        invoiceNumber := orNullStr e.invoiceNumber
        currency := some (orStr e.currency "INR") } := by
  simp only [createExpense, readExpensesFromExcel, getProductionUnit,
    readProductionUnitsFromExcel, updateProductionUnit, writeExpensesToExcel,
    writeProductionUnitsToExcel]
  cases e.productionUnitId <;> simp
  all_goals split <;> simp
  all_goals try (split <;> simp)

theorem createExpense_expenses (now : Time) (e : InsertExpense) (st : State) :
    (createExpense now e st).2.expenses = st.expenses ++ [(createExpense now e st).1] := by
  simp only [createExpense, readExpensesFromExcel, getProductionUnit,
    readProductionUnitsFromExcel, updateProductionUnit, writeExpensesToExcel,
    writeProductionUnitsToExcel]
  cases e.productionUnitId <;> simp
  all_goals split <;> simp
  all_goals try (split <;> simp)

theorem createExpense_frame (now : Time) (e : InsertExpense) (st : State) :
    (createExpense now e st).2.revenues = st.revenues
    ∧ (createExpense now e st).2.inventory = st.inventory
    ∧ (createExpense now e st).2.customers = st.customers
    ∧ (createExpense now e st).2.orders = st.orders
    ∧ (createExpense now e st).2.salaryPayments = st.salaryPayments
    ∧ (createExpense now e st).2.users = st.users := by
  simp only [createExpense, readExpensesFromExcel, getProductionUnit,
    readProductionUnitsFromExcel, updateProductionUnit, writeExpensesToExcel,
    writeProductionUnitsToExcel]
  cases e.productionUnitId <;> simp
  all_goals split <;> simp
  all_goals try (split <;> simp)

/-! Characterisation of the salary-payment operations. -/

theorem createSalaryPayment_fst (now : Time) (p : InsertSalaryPayment) (st : State) :
    (createSalaryPayment now p st).1 =
      { id := reconcileNextId st.salaryPaymentNextId (st.salaryPayments.map (·.id))
        employeeName := p.employeeName
        employeeId := p.employeeId
        productionUnitId := p.productionUnitId
        amount := p.amount
        paymentDate := p.paymentDate.getD now
        paymentMethod := p.paymentMethod
        notes := orNullStr p.notes
        month := p.month
        year := p.year } := by
  simp only [createSalaryPayment, readSalaryPaymentsFromExcel, writeSalaryPaymentsToExcel]
  split <;> simp

theorem createSalaryPayment_payments (now : Time) (p : InsertSalaryPayment) (st : State) :
    (createSalaryPayment now p st).2.salaryPayments
      = st.salaryPayments ++ [(createSalaryPayment now p st).1] := by
  rw [createSalaryPayment_fst]
  simp only [createSalaryPayment, readSalaryPaymentsFromExcel, writeSalaryPaymentsToExcel]
  split
  · rename_i hpos
    have hexp := createExpense_frame now
      { productionUnitId := p.productionUnitId
        description :=
          "Salary: " ++ p.employeeName ++ " - " ++ p.month ++ "/" ++ p.year
        amount := p.amount
        date := some (p.paymentDate.getD now)
        category := "Salary"
        currency := some "INR" }
    simp [hexp]
  · simp

theorem createSalaryPayment_expenses (now : Time) (p : InsertSalaryPayment) (st : State)
    (h : gtZero (parseFloat p.amount) = true) :
    (createSalaryPayment now p st).2.expenses = st.expenses ++
      [{ id := reconcileNextId st.expenseNextId (st.expenses.map (·.id))
         productionUnitId := p.productionUnitId
         description := "Salary: " ++ p.employeeName ++ " - " ++ p.month ++ "/" ++ p.year
         amount := p.amount
         date := p.paymentDate.getD now
         category := "Salary"
         baseAmount := none
         gstRate := none
         gstAmount := none
         hsn := none
         invoiceNumber := none
         currency := some "INR" }] := by
  simp only [createSalaryPayment, readSalaryPaymentsFromExcel, writeSalaryPaymentsToExcel]
  simp only [h, if_true, if_pos]
  rw [createExpense_expenses, createExpense_fst]
  simp [orNullNum, orNullStr, orStr]

theorem deleteSalaryPayment_frame (id : ℤ) (st : State) :
    (deleteSalaryPayment id st).2.expenses = st.expenses
    ∧ (deleteSalaryPayment id st).2.productionUnits = st.productionUnits := by
  simp only [deleteSalaryPayment, readSalaryPaymentsFromExcel, writeSalaryPaymentsToExcel]
  split <;> simp

theorem deleteSalaryPayment_true (id : ℤ) (st : State)
    (h : ∃ pmt ∈ st.salaryPayments, (pmt.id : ℤ) = id) :
    (deleteSalaryPayment id st).1 = true := by
  rcases h with ⟨pmt, hmem, hid⟩
  have hne : (st.salaryPayments.filter (fun q => !((q.id : ℤ) == id))).length
      ≠ st.salaryPayments.length := by
    intro heq
    have hall := List.filter_length_eq_length.mp heq pmt hmem
    simp [hid] at hall
  simp only [deleteSalaryPayment, readSalaryPaymentsFromExcel, writeSalaryPaymentsToExcel]
  have hbeq : ((st.salaryPayments.filter (fun q => !((q.id : ℤ) == id))).length
      == st.salaryPayments.length) = false := by
    simpa using hne
  simp [hbeq]

/-! Characterisation of `createRevenue`. -/

theorem createRevenue_fst (now : Time) (rv : InsertRevenue) (st : State) :
    (createRevenue now rv st).1 =
      { id := reconcileNextId st.revenueNextId (st.revenues.map (·.id))
        productionUnitId := rv.productionUnitId
        description := rv.description
        amount := rv.amount
        date := rv.date.getD now
        category := rv.category
        baseAmount := orNullNum rv.baseAmount
        gstRate := orNullNum rv.gstRate
        gstAmount := orNullNum rv.gstAmount
        hsn := orNullStr rv.hsn
        invoiceNumber := orNullStr rv.invoiceNumber
        currency := some (orStr rv.currency "INR")
        orderId := rv.orderId } := by
  simp [createRevenue, readRevenuesFromExcel, writeRevenuesToExcel]

theorem createRevenue_revenues (now : Time) (rv : InsertRevenue) (st : State) :
    (createRevenue now rv st).2.revenues = st.revenues ++ [(createRevenue now rv st).1] := by
  simp [createRevenue, readRevenuesFromExcel, writeRevenuesToExcel]

/-! Characterisation of the production-unit update and delete results. -/

theorem updateProductionUnit_fst_none (id : ℤ) (up : ProductionUnitUpdates) (st : State) :
    (updateProductionUnit id up st).1 = none
      ↔ ∀ u ∈ st.productionUnits, ¬((u.id : ℤ) = id) := by
  simp only [updateProductionUnit, readProductionUnitsFromExcel,
    writeProductionUnitsToExcel, updateFirst_fst]
  cases hf : st.productionUnits.find? (fun u => (u.id : ℤ) == id) with
  | none =>
    simp only [Option.map_none']
    constructor
    · intro _ u hu
      have hall := List.find?_eq_none.mp hf u hu
      simpa using hall
    · intro _
      trivial
  | some u =>
    simp only [Option.map_some']
    constructor
    · intro h
      simp at h
    · intro hall
      exfalso
      have hpu := List.find?_some hf
      have hmem := List.mem_of_find?_eq_some hf
      exact hall u hmem (by simpa using hpu)

theorem deleteProductionUnit_false_iff (id : ℤ) (st : State) :
    (deleteProductionUnit id st).1 = false
      ↔ ∀ u ∈ st.productionUnits, ¬((u.id : ℤ) = id) := by
  simp only [deleteProductionUnit, readProductionUnitsFromExcel, writeProductionUnitsToExcel]
  split
  · rename_i heq
    have heq2 : (st.productionUnits.filter (fun u => !((u.id : ℤ) == id))).length
        = st.productionUnits.length := by simpa using heq
    constructor
    · intro _ u hu
      have hkeep := List.filter_length_eq_length.mp heq2 u hu
      simpa using hkeep
    · intro _
      trivial
  · rename_i hne
    constructor
    · intro h
      simp at h
    · intro hall
      exfalso
      apply hne
      have hfix : st.productionUnits.filter (fun u => !((u.id : ℤ) == id))
          = st.productionUnits := by
        apply List.filter_eq_self.mpr
        intro u hu
        simpa using hall u hu
      simp [hfix]

/-- The first required field missing from the headers makes
`validateHeaders` throw. -/
theorem validateHeaders_error (headers req : List String) (f : String)
    (hf : f ∈ req) (hnot : f ∉ headers) :
    ∃ e, validateHeaders headers req = .error e := by
  induction req with
  | nil => cases hf
  | cons g rest ih =>
    by_cases hg : headers.contains g = true
    · rcases List.mem_cons.mp hf with rfl | hfr
      · exact absurd (by simpa using hg) hnot
      · obtain ⟨e, he⟩ := ih hfr
        have hstep : validateHeaders headers (g :: rest) = validateHeaders headers rest := by
          simp only [validateHeaders]
          rw [if_pos hg]
        exact ⟨e, by rw [hstep, he]⟩
    · refine ⟨"Required field missing in Excel file: " ++ g, ?_⟩
      simp only [validateHeaders]
      rw [if_neg hg]

/-! ## Claim theorems -/

/-- C2: for every customer id such that some stored order has `customerId`
equal to that id, `deleteCustomer(id)` returns false and the stored
customers list is unchanged. -/
theorem deleteCustomer_with_orders_fails (id : ℤ) (st : State)
    (h : ∃ o ∈ st.orders, o.customerId = some id) :
    (deleteCustomer id st).1 = false
    ∧ (deleteCustomer id st).2.customers = st.customers := by
  have hany : st.orders.any (fun o => o.customerId == some id) = true := by
    rcases h with ⟨o, ho, hid⟩
    exact List.any_eq_true.mpr ⟨o, ho, by simp [hid]⟩
  simp [deleteCustomer, readOrdersFromExcel, hany]

/-- Witness for C2 at a concrete state holding one order of customer 1. -/
theorem deleteCustomer_with_orders_fails_witness :
    (∃ o ∈ stateWithOrder.orders, o.customerId = some 1)
    ∧ (deleteCustomer 1 stateWithOrder).1 = false
    ∧ (deleteCustomer 1 stateWithOrder).2.customers = stateWithOrder.customers := by
  have h : ∃ o ∈ stateWithOrder.orders, o.customerId = some 1 :=
    ⟨orderOne, by simp [stateWithOrder, emptyState], rfl⟩
  obtain ⟨a, b⟩ := deleteCustomer_with_orders_fails 1 stateWithOrder h
  exact ⟨h, a, b⟩

/-- C9: `createUser` is idempotent on username: when the username already
exists, the stored user whose name matches is returned, and the users store
is unchanged (the returned record carries its old id, not a fresh one). -/
theorem createUser_idempotent_on_username (user : InsertUser) (st : State) (u : User)
    (hmem : u ∈ st.users) (hname : u.username = user.username) :
    (createUser user st).1 ∈ st.users
    ∧ (createUser user st).1.username = user.username
    ∧ (createUser user st).2.users = st.users := by
  have hne : st.users.isEmpty = false := by
    cases hcase : st.users with
    | nil => rw [hcase] at hmem; cases hmem
    | cons a l => rfl
  obtain ⟨w, hw⟩ : ∃ w, st.users.find? (fun v => v.username == user.username) = some w := by
    have hs : (st.users.find? (fun v => v.username == user.username)).isSome := by
      rw [List.find?_isSome]
      exact ⟨u, hmem, by simp [hname]⟩
    exact Option.isSome_iff_exists.mp hs
  have hwmem : w ∈ st.users := List.mem_of_find?_eq_some hw
  have hwname : w.username = user.username := by
    have hfs := List.find?_some hw
    simpa using hfs
  simp only [createUser, readUsersFromExcel, hne, Bool.false_eq_true, if_false, hw]
  exact ⟨hwmem, hwname, by trivial⟩

/-- Witness for C9: re-creating the admin user returns the stored admin. -/
theorem createUser_idempotent_on_username_witness :
    defaultAdminUser ∈ stateWithAdmin.users
    ∧ defaultAdminUser.username = userInsertAdmin.username
    ∧ (createUser userInsertAdmin stateWithAdmin).1 ∈ stateWithAdmin.users
    ∧ (createUser userInsertAdmin stateWithAdmin).1.username = userInsertAdmin.username
    ∧ (createUser userInsertAdmin stateWithAdmin).2.users = stateWithAdmin.users := by
  have h1 : defaultAdminUser ∈ stateWithAdmin.users := by simp [stateWithAdmin, emptyState]
  have h2 : defaultAdminUser.username = userInsertAdmin.username := rfl
  obtain ⟨a, b, c⟩ := createUser_idempotent_on_username userInsertAdmin stateWithAdmin
    defaultAdminUser h1 h2
  exact ⟨h1, h2, a, b, c⟩

/-- C10: `deleteSalaryPayment` removes only the salary-payment record: after
`createSalaryPayment` with a positive amount appended a matching "Salary"
expense, deleting the new payment succeeds yet leaves the expenses store and
every production unit (hence each `costToDate`) exactly as
`createSalaryPayment` left them. -/
theorem deleteSalaryPayment_preserves_expenses (now : Time) (p : InsertSalaryPayment)
    (st : State) (hpos : gtZero (parseFloat p.amount) = true) :
    (∃ ex : Expense, (createSalaryPayment now p st).2.expenses = st.expenses ++ [ex]
        ∧ ex.category = "Salary" ∧ ex.amount = p.amount)
    ∧ (deleteSalaryPayment ((createSalaryPayment now p st).1.id : ℤ)
        (createSalaryPayment now p st).2).1 = true
    ∧ (deleteSalaryPayment ((createSalaryPayment now p st).1.id : ℤ)
        (createSalaryPayment now p st).2).2.expenses
      = (createSalaryPayment now p st).2.expenses
    ∧ (deleteSalaryPayment ((createSalaryPayment now p st).1.id : ℤ)
        (createSalaryPayment now p st).2).2.productionUnits
      = (createSalaryPayment now p st).2.productionUnits := by
  refine ⟨⟨_, createSalaryPayment_expenses now p st hpos, rfl, rfl⟩, ?_,
    (deleteSalaryPayment_frame _ _).1, (deleteSalaryPayment_frame _ _).2⟩
  apply deleteSalaryPayment_true
  refine ⟨(createSalaryPayment now p st).1, ?_, rfl⟩
  rw [createSalaryPayment_payments]
  simp

/-- Witness for C10 at a concrete positive salary payment. -/
theorem deleteSalaryPayment_preserves_expenses_witness :
    gtZero (parseFloat salaryInsertOne.amount) = true
    ∧ ((∃ ex : Expense,
          (createSalaryPayment 0 salaryInsertOne stateWithUnit).2.expenses
            = stateWithUnit.expenses ++ [ex]
          ∧ ex.category = "Salary" ∧ ex.amount = salaryInsertOne.amount)
      ∧ (deleteSalaryPayment ((createSalaryPayment 0 salaryInsertOne stateWithUnit).1.id : ℤ)
          (createSalaryPayment 0 salaryInsertOne stateWithUnit).2).1 = true
      ∧ (deleteSalaryPayment ((createSalaryPayment 0 salaryInsertOne stateWithUnit).1.id : ℤ)
          (createSalaryPayment 0 salaryInsertOne stateWithUnit).2).2.expenses
        = (createSalaryPayment 0 salaryInsertOne stateWithUnit).2.expenses
      ∧ (deleteSalaryPayment ((createSalaryPayment 0 salaryInsertOne stateWithUnit).1.id : ℤ)
          (createSalaryPayment 0 salaryInsertOne stateWithUnit).2).2.productionUnits
        = (createSalaryPayment 0 salaryInsertOne stateWithUnit).2.productionUnits) := by
  have h : gtZero (parseFloat salaryInsertOne.amount) = true := by
    simp [gtZero, parseFloat, salaryInsertOne]
  exact ⟨h, deleteSalaryPayment_preserves_expenses 0 salaryInsertOne stateWithUnit h⟩

/-- C4 (counterexample): the auto-increment claim does not hold for every
entity type: creating user "bob" in an empty users store leaves two stored
users that both carry id 1, so ids are not pairwise distinct. The read of an
empty users file writes the default admin with id 1 but does not reconcile
`userNextId`, and `createUser` then hands the new record `userNextId = 1`
as well — an id not strictly greater than the stored admin's. -/
theorem createUser_duplicate_id :
    (createUser userInsertBob emptyState).1.id = 1
    ∧ (createUser userInsertBob emptyState).2.users.map (·.id) = [1, 1]
    ∧ ¬ ((createUser userInsertBob emptyState).2.users.map (·.id)).Nodup := by
  decide

/-- C4 (amended): the auto-increment guarantee holds for the entity stores
whose read reconciles the id counter from every stored row, as the expense
store cited by the claim does: the created record's id is strictly greater
than every stored id (the counter is reconciled to max+1 during the read),
the record is appended, and pairwise distinctness of ids is preserved. It
does not extend to the users store, where creating a user in an empty store
duplicates the default admin's id 1. -/
theorem createExpense_fresh_id (now : Time) (e : InsertExpense) (st : State) :
    (∀ e0 ∈ st.expenses, e0.id < (createExpense now e st).1.id)
    ∧ (createExpense now e st).2.expenses = st.expenses ++ [(createExpense now e st).1]
    ∧ ((st.expenses.map (·.id)).Nodup →
        ((createExpense now e st).2.expenses.map (·.id)).Nodup) := by
  have hlt : ∀ e0 ∈ st.expenses, e0.id < (createExpense now e st).1.id := by
    intro e0 h0
    rw [createExpense_fst]
    exact lt_reconcileNextId _ _ _ (List.mem_map_of_mem _ h0)
  refine ⟨hlt, createExpense_expenses now e st, ?_⟩
  intro hnd
  rw [createExpense_expenses now e st]
  have hm : (st.expenses ++ [(createExpense now e st).1]).map (·.id)
      = st.expenses.map (·.id) ++ [(createExpense now e st).1.id] := by simp
  rw [hm, List.nodup_append]
  refine ⟨hnd, List.nodup_singleton _, ?_⟩
  intro x hx hy
  simp only [List.mem_singleton] at hy
  rcases List.mem_map.mp hx with ⟨e0, h0, hid⟩
  have := hlt e0 h0
  omega

/-- Witness for C4 at a store already holding one expense. -/
theorem createExpense_fresh_id_witness :
    (∀ e0 ∈ stateWithExpense.expenses,
        e0.id < (createExpense 0 expenseInsertOne stateWithExpense).1.id)
    ∧ (stateWithExpense.expenses.map (·.id)).Nodup
    ∧ ((createExpense 0 expenseInsertOne stateWithExpense).2.expenses.map (·.id)).Nodup := by
  have hnd : (stateWithExpense.expenses.map (·.id)).Nodup := by
    simp [stateWithExpense, emptyState, expenseOne]
  obtain ⟨h1, _, h3⟩ := createExpense_fresh_id 0 expenseInsertOne stateWithExpense
  exact ⟨h1, hnd, h3 hnd⟩

/-- C1: creating an expense whose `productionUnitId` matches a stored unit
and whose amount (and current unit cost) parse as numbers appends the new
expense record and leaves the linked unit's `costToDate` at its previous
numeric value plus the expense amount. -/
theorem createExpense_adds_amount_to_unit_cost (now : Time) (e : InsertExpense) (st : State)
    (k : ℤ) (unit : ProductionUnit) (a c : ℚ)
    (hk : e.productionUnitId = some k)
    (hfind : st.productionUnits.find? (fun u => (u.id : ℤ) == k) = some unit)
    (ha : parseFloat e.amount = some a)
    (hc : parseFloat unit.costToDate = some c) :
    (createExpense now e st).2.expenses = st.expenses ++ [(createExpense now e st).1]
    ∧ (createExpense now e st).2.productionUnits.find? (fun u => (u.id : ℤ) == k)
      = some { unit with costToDate := ⟨some (c + a), true⟩ } := by
  have hkid : (unit.id : ℤ) = k := by
    have hps := List.find?_some hfind
    simpa using hps
  subst hkid
  refine ⟨createExpense_expenses now e st, ?_⟩
  simp only [createExpense, readExpensesFromExcel, getProductionUnit,
    readProductionUnitsFromExcel, updateProductionUnit, writeExpensesToExcel,
    writeProductionUnitsToExcel, hk]
  simp only [hfind, updateFirst_fst, Option.map_some']
  rw [updateFirst_snd_find? _ _ _ _ hfind (by simp [applyUnitUpdates])]
  have hc2 : unit.costToDate.parsed = some c := hc
  have ha2 : e.amount.parsed = some a := ha
  simp [applyUnitUpdates, hc2, ha2, nanAdd, numToString, parseFloat]

/-- Witness for C1: a 5-rupee expense against a unit with cost 0. -/
theorem createExpense_adds_amount_to_unit_cost_witness :
    expenseInsertOne.productionUnitId = some 1
    ∧ stateWithUnit.productionUnits.find? (fun u => (u.id : ℤ) == 1) = some unitOne
    ∧ parseFloat expenseInsertOne.amount = some 5
    ∧ parseFloat unitOne.costToDate = some 0
    ∧ (createExpense 0 expenseInsertOne stateWithUnit).2.expenses
      = stateWithUnit.expenses ++ [(createExpense 0 expenseInsertOne stateWithUnit).1]
    ∧ (createExpense 0 expenseInsertOne stateWithUnit).2.productionUnits.find?
        (fun u => (u.id : ℤ) == 1)
      = some { unitOne with costToDate := ⟨some (0 + 5), true⟩ } := by
  have h1 : expenseInsertOne.productionUnitId = some 1 := rfl
  have h2 : stateWithUnit.productionUnits.find? (fun u => (u.id : ℤ) == 1) = some unitOne := by
    simp [stateWithUnit, emptyState, unitOne]
  have h3 : parseFloat expenseInsertOne.amount = some 5 := rfl
  have h4 : parseFloat unitOne.costToDate = some 0 := rfl
  obtain ⟨a, b⟩ := createExpense_adds_amount_to_unit_cost 0 expenseInsertOne stateWithUnit
    1 unitOne 5 0 h1 h2 h3 h4
  exact ⟨h1, h2, h3, h4, a, b⟩

/-- C7: `updateRevenue` is a whole-store rewrite that touches only the
revenues store: with pairwise-distinct revenue ids and the target id stored,
the revenue with that id becomes the merge of its old fields with the
updates, every other revenue is unchanged, and the production-unit, expense,
inventory, customer, order (and remaining) stores are identical. -/
theorem updateRevenue_frame (id : ℤ) (up : RevenueUpdates) (st : State)
    (hdist : st.revenues.Pairwise (fun r1 r2 => r1.id ≠ r2.id))
    (hex : ∃ r ∈ st.revenues, (r.id : ℤ) = id) :
    (updateRevenue id up st).2.revenues
      = st.revenues.map (fun r => if (r.id : ℤ) == id then applyRevenueUpdates r up else r)
    ∧ (updateRevenue id up st).1.isSome = true
    ∧ (updateRevenue id up st).2.productionUnits = st.productionUnits
    ∧ (updateRevenue id up st).2.expenses = st.expenses
    ∧ (updateRevenue id up st).2.inventory = st.inventory
    ∧ (updateRevenue id up st).2.customers = st.customers
    ∧ (updateRevenue id up st).2.orders = st.orders
    ∧ (updateRevenue id up st).2.salaryPayments = st.salaryPayments
    ∧ (updateRevenue id up st).2.users = st.users := by
  have hpair : st.revenues.Pairwise
      (fun r1 r2 => ((r1.id : ℤ) == id) = true → ((r2.id : ℤ) == id) = true → False) := by
    refine hdist.imp ?_
    intro r1 r2 hne h1 h2
    apply hne
    have e1 : (r1.id : ℤ) = id := by simpa using h1
    have e2 : (r2.id : ℤ) = id := by simpa using h2
    omega
  have hsnd := updateFirst_snd_eq_map (fun r => (r.id : ℤ) == id)
    (fun r => applyRevenueUpdates r up) st.revenues hpair
  obtain ⟨w, hw⟩ : ∃ w, st.revenues.find? (fun r => (r.id : ℤ) == id) = some w := by
    rcases hex with ⟨r, hr, hid⟩
    exact Option.isSome_iff_exists.mp (List.find?_isSome.mpr ⟨r, hr, by simp [hid]⟩)
  simp only [updateRevenue, readRevenuesFromExcel, writeRevenuesToExcel,
    updateFirst_fst, hw, Option.map_some']
  refine ⟨hsnd, ?_, ?_, ?_, ?_, ?_, ?_, ?_, ?_⟩ <;> trivial

/-- Witness for C7: updating the single stored revenue's amount. -/
theorem updateRevenue_frame_witness :
    stateWithRevenue.revenues.Pairwise (fun r1 r2 => r1.id ≠ r2.id)
    ∧ (∃ r ∈ stateWithRevenue.revenues, (r.id : ℤ) = 1)
    ∧ (updateRevenue 1 revUpdatesOne stateWithRevenue).2.revenues
      = stateWithRevenue.revenues.map
          (fun r => if (r.id : ℤ) == 1 then applyRevenueUpdates r revUpdatesOne else r)
    ∧ (updateRevenue 1 revUpdatesOne stateWithRevenue).1.isSome = true
    ∧ (updateRevenue 1 revUpdatesOne stateWithRevenue).2.expenses
      = stateWithRevenue.expenses := by
  have hdist : stateWithRevenue.revenues.Pairwise (fun r1 r2 => r1.id ≠ r2.id) := by
    simp [stateWithRevenue, emptyState]
  have hex : ∃ r ∈ stateWithRevenue.revenues, (r.id : ℤ) = 1 :=
    ⟨revenueOne, by simp [stateWithRevenue, emptyState], rfl⟩
  obtain ⟨a, b, _, c, _⟩ := updateRevenue_frame 1 revUpdatesOne stateWithRevenue hdist hex
  exact ⟨hdist, hex, a, b, c⟩

/-- C8: `createOrder` creates a matching revenue entry (orderId = new order's
id, amount = its totalAmount, category "Stitching") exactly when the new
order's totalAmount parses to a positive value and its status is not
"draft"; otherwise the revenues store is unchanged. -/
theorem createOrder_revenue_iff (now : Time) (year : ℕ) (ord : InsertOrder) (st : State) :
    ((∃ rv : Revenue, (createOrder now year ord st).2.revenues = st.revenues ++ [rv]
        ∧ rv.orderId = some ((createOrder now year ord st).1.id : ℤ)
        ∧ rv.amount = (createOrder now year ord st).1.totalAmount
        ∧ rv.category = "Stitching")
      ↔ (gtZero (parseFloat (createOrder now year ord st).1.totalAmount) = true
          ∧ (createOrder now year ord st).1.status ≠ "draft"))
    ∧ (¬(gtZero (parseFloat (createOrder now year ord st).1.totalAmount) = true
          ∧ (createOrder now year ord st).1.status ≠ "draft")
        → (createOrder now year ord st).2.revenues = st.revenues) := by
  simp only [createOrder, createRevenue, readOrdersFromExcel, readRevenuesFromExcel,
    writeOrdersToExcel, writeRevenuesToExcel]
  split
  · rename_i hcond
    rw [Bool.and_eq_true] at hcond
    obtain ⟨hg, hsb⟩ := hcond
    have hs : ¬ orStr ord.status "pending" = "draft" := by
      simpa using hsb
    constructor
    · constructor
      · intro _
        exact ⟨by simpa using hg, by simpa using hs⟩
      · intro _
        refine ⟨_, rfl, by simp, by simp, by simp⟩
    · intro hcontra
      exact absurd ⟨by simpa using hg, by simpa using hs⟩ hcontra
  · rename_i hcond
    have hnot : ¬ (gtZero (parseFloat (orNumStrReq ord.totalAmount zeroStr)) = true
        ∧ ¬ orStr ord.status "pending" = "draft") := by
      intro hpair
      obtain ⟨hg, hsn⟩ := hpair
      rw [Bool.and_eq_true] at hcond
      push_neg at hcond
      have hdr := hcond hg
      simp at hdr
      exact hsn hdr
    constructor
    · constructor
      · intro hex
        obtain ⟨rv, hrv, _⟩ := hex
        exfalso
        have hlen := congrArg List.length hrv
        simp at hlen
      · intro hright
        exact absurd (by simpa using hright) hnot
    · intro _
      rfl

/-- Witness for C8: a 250-rupee pending order creates a matching revenue. -/
theorem createOrder_revenue_iff_witness :
    (gtZero (parseFloat (createOrder 0 2024 orderInsertOne emptyState).1.totalAmount) = true
      ∧ (createOrder 0 2024 orderInsertOne emptyState).1.status ≠ "draft")
    ∧ (∃ rv : Revenue, (createOrder 0 2024 orderInsertOne emptyState).2.revenues
          = emptyState.revenues ++ [rv]
        ∧ rv.orderId = some ((createOrder 0 2024 orderInsertOne emptyState).1.id : ℤ)
        ∧ rv.amount = (createOrder 0 2024 orderInsertOne emptyState).1.totalAmount
        ∧ rv.category = "Stitching") := by
  have hrhs : gtZero (parseFloat (createOrder 0 2024 orderInsertOne emptyState).1.totalAmount) = true
      ∧ (createOrder 0 2024 orderInsertOne emptyState).1.status ≠ "draft" := by
    constructor
    · simp [createOrder, createRevenue, readOrdersFromExcel, readRevenuesFromExcel,
        writeOrdersToExcel, writeRevenuesToExcel, orderInsertOne, emptyState,
        orNumStrReq, zeroStr, gtZero, parseFloat, orStr]
    · simp [createOrder, createRevenue, readOrdersFromExcel, readRevenuesFromExcel,
        writeOrdersToExcel, writeRevenuesToExcel, orderInsertOne, emptyState,
        orNumStrReq, zeroStr, gtZero, parseFloat, orStr]
  exact ⟨hrhs, ((createOrder_revenue_iff 0 2024 orderInsertOne emptyState).1).mpr hrhs⟩

/-- C6: three-way error taxonomy of the production-unit routes: a failed
body validation yields 400, a missing entity id yields 404, a thrown
storage error yields 500, and otherwise the success status (201, 200, 204)
is returned. -/
theorem productionUnit_routes_taxonomy (now : Time) (fault : Bool) (id : ℤ)
    (vIns : Option InsertProductionUnit) (vUpd : Option ProductionUnitUpdates) (st : State) :
    ((postProductionUnitRoute now fault vIns st).1 = 400 ↔ vIns = none)
    ∧ ((postProductionUnitRoute now fault vIns st).1 = 500 ↔ (vIns ≠ none ∧ fault = true))
    ∧ (vIns ≠ none → fault = false → (postProductionUnitRoute now fault vIns st).1 = 201)
    ∧ ((putProductionUnitRoute fault id vUpd st).1 = 400 ↔ vUpd = none)
    ∧ ((putProductionUnitRoute fault id vUpd st).1 = 500 ↔ (vUpd ≠ none ∧ fault = true))
    ∧ ((putProductionUnitRoute fault id vUpd st).1 = 404
        ↔ (vUpd ≠ none ∧ fault = false ∧ ∀ u ∈ st.productionUnits, ¬((u.id : ℤ) = id)))
    ∧ ((putProductionUnitRoute fault id vUpd st).1 = 200
        ↔ (vUpd ≠ none ∧ fault = false ∧ ∃ u ∈ st.productionUnits, (u.id : ℤ) = id))
    ∧ ((deleteProductionUnitRoute fault id st).1 = 500 ↔ fault = true)
    ∧ ((deleteProductionUnitRoute fault id st).1 = 404
        ↔ (fault = false ∧ ∀ u ∈ st.productionUnits, ¬((u.id : ℤ) = id)))
    ∧ ((deleteProductionUnitRoute fault id st).1 = 204
        ↔ (fault = false ∧ ∃ u ∈ st.productionUnits, (u.id : ℤ) = id)) := by
  refine ⟨?_, ?_, ?_, ?_, ?_, ?_, ?_, ?_, ?_, ?_⟩
  · rcases vIns with _ | u
    · simp [postProductionUnitRoute]
    · cases fault <;> simp [postProductionUnitRoute]
  · rcases vIns with _ | u
    · simp [postProductionUnitRoute]
    · cases fault <;> simp [postProductionUnitRoute]
  · rcases vIns with _ | u
    · intro h
      simp at h
    · intro _ hf
      subst hf
      simp [postProductionUnitRoute]
  · rcases vUpd with _ | upd
    · simp [putProductionUnitRoute]
    · cases fault
      · rcases hres : updateProductionUnit id upd st with ⟨res, st2⟩
        rcases res with _ | w <;> simp [putProductionUnitRoute, hres]
      · simp [putProductionUnitRoute]
  · rcases vUpd with _ | upd
    · simp [putProductionUnitRoute]
    · cases fault
      · rcases hres : updateProductionUnit id upd st with ⟨res, st2⟩
        rcases res with _ | w <;> simp [putProductionUnitRoute, hres]
      · simp [putProductionUnitRoute]
  · rcases vUpd with _ | upd
    · simp [putProductionUnitRoute]
    · cases fault
      · rcases hres : updateProductionUnit id upd st with ⟨res, st2⟩
        rcases res with _ | w
        · have hnone : (updateProductionUnit id upd st).1 = none := by rw [hres]
          have hnm := (updateProductionUnit_fst_none id upd st).mp hnone
          simp [putProductionUnitRoute, hres]
          exact hnm
        · have hsome : (updateProductionUnit id upd st).1 = some w := by rw [hres]
          have hnm : ¬ ∀ u ∈ st.productionUnits, ¬((u.id : ℤ) = id) := by
            intro hall
            rw [(updateProductionUnit_fst_none id upd st).mpr hall] at hsome
            cases hsome
          push_neg at hnm
          simp [putProductionUnitRoute, hres]
          exact hnm
      · simp [putProductionUnitRoute]
  · rcases vUpd with _ | upd
    · simp [putProductionUnitRoute]
    · cases fault
      · rcases hres : updateProductionUnit id upd st with ⟨res, st2⟩
        rcases res with _ | w
        · have hnone : (updateProductionUnit id upd st).1 = none := by rw [hres]
          have hnm := (updateProductionUnit_fst_none id upd st).mp hnone
          simp [putProductionUnitRoute, hres]
          intro u hu hid
          exact hnm u hu hid
        · have hsome : (updateProductionUnit id upd st).1 = some w := by rw [hres]
          have hnm : ¬ ∀ u ∈ st.productionUnits, ¬((u.id : ℤ) = id) := by
            intro hall
            rw [(updateProductionUnit_fst_none id upd st).mpr hall] at hsome
            cases hsome
          push_neg at hnm
          obtain ⟨u, hu, hid⟩ := hnm
          simp [putProductionUnitRoute, hres]
          exact ⟨u, hu, hid⟩
      · simp [putProductionUnitRoute]
  · cases fault
    · rcases hres : deleteProductionUnit id st with ⟨ok, st2⟩
      rcases ok <;> simp [deleteProductionUnitRoute, hres]
    · simp [deleteProductionUnitRoute]
  · cases fault
    · rcases hres : deleteProductionUnit id st with ⟨ok, st2⟩
      rcases ok
      · have hfalse : (deleteProductionUnit id st).1 = false := by rw [hres]
        have hnm := (deleteProductionUnit_false_iff id st).mp hfalse
        simp [deleteProductionUnitRoute, hres]
        exact hnm
      · have htrue : (deleteProductionUnit id st).1 = true := by rw [hres]
        have hnm : ¬ ∀ u ∈ st.productionUnits, ¬((u.id : ℤ) = id) := by
          intro hall
          rw [(deleteProductionUnit_false_iff id st).mpr hall] at htrue
          cases htrue
        push_neg at hnm
        simp [deleteProductionUnitRoute, hres]
        exact hnm
    · simp [deleteProductionUnitRoute]
  · cases fault
    · rcases hres : deleteProductionUnit id st with ⟨ok, st2⟩
      rcases ok
      · have hfalse : (deleteProductionUnit id st).1 = false := by rw [hres]
        have hnm := (deleteProductionUnit_false_iff id st).mp hfalse
        simp [deleteProductionUnitRoute, hres]
        intro u hu hid
        exact hnm u hu hid
      · have htrue : (deleteProductionUnit id st).1 = true := by rw [hres]
        have hnm : ¬ ∀ u ∈ st.productionUnits, ¬((u.id : ℤ) = id) := by
          intro hall
          rw [(deleteProductionUnit_false_iff id st).mpr hall] at htrue
          cases htrue
        push_neg at hnm
        obtain ⟨u, hu, hid⟩ := hnm
        simp [deleteProductionUnitRoute, hres]
        exact ⟨u, hu, hid⟩
    · simp [deleteProductionUnitRoute]

/-- Witness for C6: each branch of the taxonomy realised at a concrete
state holding one unit with id 1. -/
theorem productionUnit_routes_taxonomy_witness :
    (postProductionUnitRoute 0 false (some insertUnitB) stateWithUnit).1 = 201
    ∧ (postProductionUnitRoute 0 false none stateWithUnit).1 = 400
    ∧ (putProductionUnitRoute false 1 (some unitUpdatesEmpty) stateWithUnit).1 = 200
    ∧ (putProductionUnitRoute false 2 (some unitUpdatesEmpty) stateWithUnit).1 = 404
    ∧ (deleteProductionUnitRoute false 1 stateWithUnit).1 = 204
    ∧ (deleteProductionUnitRoute true 1 stateWithUnit).1 = 500 := by
  obtain ⟨_, _, p201, _, _, _, u200, _, _, d204⟩ :=
    productionUnit_routes_taxonomy 0 false 1 (some insertUnitB) (some unitUpdatesEmpty)
      stateWithUnit
  obtain ⟨p400, _, _, _, _, _, _, _, _, _⟩ :=
    productionUnit_routes_taxonomy 0 false 1 none (some unitUpdatesEmpty) stateWithUnit
  obtain ⟨_, _, _, _, _, u404, _, _, _, _⟩ :=
    productionUnit_routes_taxonomy 0 false 2 (some insertUnitB) (some unitUpdatesEmpty)
      stateWithUnit
  obtain ⟨_, _, _, _, _, _, _, d500, _, _⟩ :=
    productionUnit_routes_taxonomy 0 true 1 (some insertUnitB) (some unitUpdatesEmpty)
      stateWithUnit
  refine ⟨p201 (by simp) rfl, p400.mpr rfl, ?_, ?_, ?_, d500.mpr rfl⟩
  · exact u200.mpr ⟨by simp, rfl, ⟨unitOne, by simp [stateWithUnit, emptyState], rfl⟩⟩
  · refine u404.mpr ⟨by simp, rfl, ?_⟩
    intro u hu
    simp [stateWithUnit, emptyState] at hu
    subst hu
    simp [unitOne]
  · exact d204.mpr ⟨rfl, ⟨unitOne, by simp [stateWithUnit, emptyState], rfl⟩⟩

/-- C3: an import whose header row lacks one of its type's required columns
throws and adds nothing: `importFromExcel` returns an error and the state,
every store and every counter included, is exactly the input state. -/
theorem importFromExcel_rejects_missing_columns (now : Time) (data : List Row) (st : State)
    (type : String)
    (htype : type = "production_units" ∨ type = "expenses" ∨ type = "revenues"
      ∨ type = "inventory")
    (hne : data ≠ [])
    (hmiss : ∃ f ∈ requiredFieldsFor type, f ∉ (data.headD []).map headerName) :
    (∃ e : String, (importFromExcel now data type st).1 = .error e)
    ∧ (importFromExcel now data type st).2 = st := by
  by_cases hlen : data.length ≤ 1
  · constructor
    · exact ⟨"Invalid Excel file format or empty file", by simp [importFromExcel, hlen]⟩
    · simp [importFromExcel, hlen]
  · obtain ⟨f, hf, hnot⟩ := hmiss
    rcases htype with rfl | rfl | rfl | rfl
    · obtain ⟨e, he⟩ := validateHeaders_error ((data.headD []).map headerName)
        ["name", "location", "status"] f (by simpa [requiredFieldsFor] using hf) hnot
      rw [List.headD_eq_head?_getD] at he
      exact ⟨⟨e, by simp [importFromExcel, hlen, importProductionUnits, he]⟩,
        by simp [importFromExcel, hlen, importProductionUnits, he]⟩
    · obtain ⟨e, he⟩ := validateHeaders_error ((data.headD []).map headerName)
        ["productionUnitId", "description", "amount", "category"] f
        (by simpa [requiredFieldsFor] using hf) hnot
      rw [List.headD_eq_head?_getD] at he
      exact ⟨⟨e, by simp [importFromExcel, hlen, importExpenses, he]⟩,
        by simp [importFromExcel, hlen, importExpenses, he]⟩
    · obtain ⟨e, he⟩ := validateHeaders_error ((data.headD []).map headerName)
        ["productionUnitId", "description", "amount", "category"] f
        (by simpa [requiredFieldsFor] using hf) hnot
      rw [List.headD_eq_head?_getD] at he
      exact ⟨⟨e, by simp [importFromExcel, hlen, importRevenues, he]⟩,
        by simp [importFromExcel, hlen, importRevenues, he]⟩
    · obtain ⟨e, he⟩ := validateHeaders_error ((data.headD []).map headerName)
        ["name", "quantity", "unitCost"] f (by simpa [requiredFieldsFor] using hf) hnot
      rw [List.headD_eq_head?_getD] at he
      exact ⟨⟨e, by simp [importFromExcel, hlen, importInventory, he]⟩,
        by simp [importFromExcel, hlen, importInventory, he]⟩

/-- Witness for C3: an expenses import whose header row only has a
"description" column is rejected and the state is untouched. -/
theorem importFromExcel_rejects_missing_columns_witness :
    ([[headerCell "description"], [headerCell "x"]] : List Row) ≠ []
    ∧ (∃ f ∈ requiredFieldsFor "expenses",
        f ∉ (([[headerCell "description"], [headerCell "x"]] : List Row).headD []).map headerName)
    ∧ (∃ e : String,
        (importFromExcel 0 [[headerCell "description"], [headerCell "x"]] "expenses"
          emptyState).1 = .error e)
    ∧ (importFromExcel 0 [[headerCell "description"], [headerCell "x"]] "expenses"
        emptyState).2 = emptyState := by
  have hne : ([[headerCell "description"], [headerCell "x"]] : List Row) ≠ [] := by simp
  have hmiss : ∃ f ∈ requiredFieldsFor "expenses",
      f ∉ (([[headerCell "description"], [headerCell "x"]] : List Row).headD []).map headerName :=
    ⟨"productionUnitId", by simp [requiredFieldsFor], by simp [headerName, headerCell]⟩
  obtain ⟨a, b⟩ := importFromExcel_rejects_missing_columns 0
    [[headerCell "description"], [headerCell "x"]] emptyState "expenses"
    (Or.inr (Or.inl rfl)) hne hmiss
  exact ⟨hne, hmiss, a, b⟩

/-- C5 (counterexample): at totalAmount 0.14 and GST rate 12 the rounded
split is 0.13 + 0.02 = 0.15 ≠ 0.14, and the round trip through the rounded
base also returns 0.15 ≠ 0.14. -/
theorem gst_exact_split_fails :
    ¬(calculateBaseFromTotal (14/100) 12 + calculateGSTFromTotal (14/100) 12 = 14/100)
    ∧ ¬(calculateTotalFromBase (calculateBaseFromTotal (14/100) 12) 12 = 14/100) := by
  constructor <;>
    norm_num [calculateBaseFromTotal, calculateGSTFromTotal, calculateTotalFromBase,
      calculateGSTFromBase, roundTo2]

/-- C5 (amended): for a whole-cent totalAmount and any natural GST rate, the
rounded base and rounded GST sum to the total exactly or overshoot it by
exactly one cent; and at the statutory rates (0, 5, 12, 18, 28) the round
trip `calculateTotalFromBase ∘ calculateBaseFromTotal` returns the total to
within one cent. -/
theorem gst_split_within_one_cent (c r : ℕ) :
    (calculateBaseFromTotal ((c : ℚ)/100) (r : ℚ) + calculateGSTFromTotal ((c : ℚ)/100) (r : ℚ)
        = (c : ℚ)/100
      ∨ calculateBaseFromTotal ((c : ℚ)/100) (r : ℚ) + calculateGSTFromTotal ((c : ℚ)/100) (r : ℚ)
        = (c : ℚ)/100 + 1/100)
    ∧ ((r = 0 ∨ r = 5 ∨ r = 12 ∨ r = 18 ∨ r = 28) →
        |calculateTotalFromBase (calculateBaseFromTotal ((c : ℚ)/100) (r : ℚ)) (r : ℚ)
          - (c : ℚ)/100| ≤ 1/100) := by
  constructor
  · rcases div_half_sum c (100 + r) (100*c) (c*r) (by omega) (by ring) with h | h
    · left
      rw [calculateBaseFromTotal_cents, calculateGSTFromTotal_cents, div_add_div_same,
        ← Nat.cast_add, h]
    · right
      rw [calculateBaseFromTotal_cents, calculateGSTFromTotal_cents, div_add_div_same,
        ← Nat.cast_add, h]
      push_cast
      ring
  · intro hr
    obtain ⟨hb1, hb2⟩ := roundtrip_int_bound c r hr
    rw [calculateBaseFromTotal_cents, calculateTotalFromBase_cents]
    set T : ℕ := (2*(((2*(100*c) + (100 + r)) / (2*(100 + r)))
        + (2*(((2*(100*c) + (100 + r)) / (2*(100 + r)))*r) + 100) / (2*100)) + 1) / (2*1)
      with hT
    have h1 : (T : ℚ) ≤ (c : ℚ) + 1 := by exact_mod_cast hb1
    have h2 : (c : ℚ) ≤ (T : ℚ) + 1 := by exact_mod_cast hb2
    rw [div_sub_div_same, abs_le]
    constructor <;> linarith

/-- Witness for the amended C5 at totalAmount 1.00 and rate 18. -/
theorem gst_split_within_one_cent_witness :
    ((18 : ℕ) = 0 ∨ (18 : ℕ) = 5 ∨ (18 : ℕ) = 12 ∨ (18 : ℕ) = 18 ∨ (18 : ℕ) = 28)
    ∧ (calculateBaseFromTotal (((100 : ℕ) : ℚ)/100) ((18 : ℕ) : ℚ)
          + calculateGSTFromTotal (((100 : ℕ) : ℚ)/100) ((18 : ℕ) : ℚ)
          = ((100 : ℕ) : ℚ)/100
        ∨ calculateBaseFromTotal (((100 : ℕ) : ℚ)/100) ((18 : ℕ) : ℚ)
          + calculateGSTFromTotal (((100 : ℕ) : ℚ)/100) ((18 : ℕ) : ℚ)
          = ((100 : ℕ) : ℚ)/100 + 1/100)
    ∧ |calculateTotalFromBase
          (calculateBaseFromTotal (((100 : ℕ) : ℚ)/100) ((18 : ℕ) : ℚ)) ((18 : ℕ) : ℚ)
        - ((100 : ℕ) : ℚ)/100| ≤ 1/100 := by
  have hr : (18 : ℕ) = 0 ∨ (18 : ℕ) = 5 ∨ (18 : ℕ) = 12 ∨ (18 : ℕ) = 18 ∨ (18 : ℕ) = 28 :=
    Or.inr (Or.inr (Or.inr (Or.inl rfl)))
  obtain ⟨h1, h2⟩ := gst_split_within_one_cent 100 18
  exact ⟨hr, h1, h2 hr⟩

end PFT
